import Mathlib

/-!
Shallow embedding of the evaluation engine of the vision-compression
repository (backend/eval): the citation and judging subsystem (judge.py,
metrics.py), the retrieval filter (modes/text_rag.py), the three mode
runners (modes/text_rag.py, modes/optical.py, modes/hybrid.py) and the
orchestrator error path (run_eval.py).  Python strings are modelled at
the ASCII level as List Char; Python floats are modelled as rationals;
dictionaries with possibly absent keys are modelled with Option fields;
the external retrieval and generation services are modelled as explicit
inputs (the result list the service returns, and functions giving the
text the generation service would produce).
-/

namespace VisionEval

/-! ## Python string primitives -/

/-- The characters the Python regex class backslash-s matches in ASCII. -/
def isPySpace (c : Char) : Bool :=
  c = ' ' || c = '\t' || c = '\n' || c = '\r' || c = '\x0b' || c = '\x0c'

/-- The characters the Python regex class backslash-w matches in ASCII:
letters, digits and the underscore. -/
def isWordChar (c : Char) : Bool :=
  c.isAlphanum || c = '_'

/-- Whether the first list is a prefix of the second (character lists). -/
def startsWithCL : List Char → List Char → Bool
  | [], _ => true
  | _ :: _, [] => false
  | a :: as, b :: bs => a == b && startsWithCL as bs

/-- Python substring containment: needle occurs contiguously in hay. -/
def containsCL (needle : List Char) : List Char → Bool
  | [] => startsWithCL needle []
  | c :: rest => startsWithCL needle (c :: rest) || containsCL needle rest

/-- Python substring test on strings, as in the expression
needle in hay. -/
def pyContains (hay needle : String) : Bool :=
  containsCL needle.data hay.data

/-- Python str.lower, ASCII, written over the character list. -/
def pyLower (s : String) : String :=
  String.mk (s.data.map Char.toLower)

/-- Python str.strip on a character list: drop leading and trailing
whitespace. -/
def pyStripCL (cs : List Char) : List Char :=
  ((cs.dropWhile isPySpace).reverse.dropWhile isPySpace).reverse

/-- Helper for pyWords: accumulate the current word (reversed) while
scanning. -/
def pyWordsAux : List Char → List Char → List (List Char)
  | [], acc => if acc = [] then [] else [acc.reverse]
  | c :: cs, acc =>
    if isPySpace c then
      if acc = [] then pyWordsAux cs [] else acc.reverse :: pyWordsAux cs []
    else
      pyWordsAux cs (c :: acc)

/-- Python str.split with no argument: split on whitespace runs,
dropping empty pieces. -/
def pyWords (cs : List Char) : List (List Char) :=
  pyWordsAux cs []

/-- Split a character list at every character satisfying p, keeping the
(possibly empty) pieces between separators.  The sources split with the
regex class of sentence punctuation under a plus quantifier and then
drop blank pieces; splitting at every single separator instead only
introduces extra empty pieces between adjacent separators, and those
are removed by the same blank filter, so the final sentence lists
agree. -/
def splitAtAux (p : Char → Bool) : List Char → List Char → List (List Char)
  | [], acc => [acc.reverse]
  | c :: cs, acc =>
    if p c then acc.reverse :: splitAtAux p cs []
    else splitAtAux p cs (c :: acc)

/-- Sentence punctuation used by judge.py and metrics.py: period,
exclamation mark, question mark. -/
def isSentencePunct (c : Char) : Bool :=
  c = '.' || c = '!' || c = '?'

/-- The non-empty stripped sentences of an answer, as produced by
re.split on sentence punctuation followed by strip and a blank filter
(judge.py lines 64-66 and metrics.py lines 55-56). -/
def pySentences (answer : String) : List (List Char) :=
  ((splitAtAux isSentencePunct answer.data []).map pyStripCL).filter (· ≠ [])

/-! ## The citation regex

judge.py uses the pattern backslash-open-paren, one or more non-close-paren
characters, whitespace, p dot digits, optionally repeated comma p dot digits
groups, close paren (case-insensitive).  Because none of the inner tokens
can match a close paren, any match starting at a given open paren must end
exactly at the first close paren that follows it, so match existence is
decided by checking, for each open paren, every split of the span before
the first close paren into a non-empty head and a whitespace-then-pages
tail.  metrics.py additionally uses, per sentence, the truncated pattern
without the trailing close paren. -/

/-- Parse a case-insensitive p, a dot and one or more digits;
return the remainder after the digits, or none. -/
def pDotDigits : List Char → Option (List Char)
  | c1 :: c2 :: c3 :: cs =>
    if (c1 = 'p' || c1 = 'P') && c2 = '.' && c3.isDigit then
      some (cs.dropWhile Char.isDigit)
    else none
  | _ => none

/-- Zero or more groups of optional whitespace, a comma, optional
whitespace and p dot digits, consuming the whole input.  The fuel is at
least the input length, and every recursive step consumes at least one
character, so the zero-fuel case is unreachable from citGroupsAll. -/
def citGroupsAllF : Nat → List Char → Bool
  | _, [] => true
  | 0, _ => false
  | f + 1, cs =>
    match cs.dropWhile isPySpace with
    | ',' :: cs2 =>
      match pDotDigits (cs2.dropWhile isPySpace) with
      | some rest => citGroupsAllF f rest
      | none => false
    | _ => false

/-- Zero or more comma-separated page groups consuming the whole input. -/
def citGroupsAll (cs : List Char) : Bool :=
  citGroupsAllF cs.length cs

/-- One or more whitespace characters, then p dot digits, then page
groups, consuming the whole input.  Consuming fewer whitespace
characters than the maximal run cannot help, because the character
after the run would then have to be p, so the greedy parse decides
match existence. -/
def citTailAll (cs : List Char) : Bool :=
  match cs with
  | [] => false
  | c :: _ =>
    isPySpace c &&
      (match pDotDigits (cs.dropWhile isPySpace) with
       | some rest => citGroupsAll rest
       | none => false)

/-- The span between an open paren and the first close paren matches
the citation body: some non-empty head (the one-or-more non-close-paren
characters) followed by the whitespace-and-pages tail. -/
def citBodyOK (body : List Char) : Bool :=
  (List.range body.length).any fun k => decide (1 ≤ k) && citTailAll (body.drop k)

/-- re.search of the full citation pattern of judge.py (and, up to the
lazy quantifier, the extraction pattern of metrics.py, which has the
same matches): does a citation match start anywhere in the input? -/
def citCloseSearch : List Char → Bool
  | [] => false
  | c :: rest =>
    (c = '(' &&
      (let body := rest.takeWhile (fun x => x ≠ ')')
       decide (body.length < rest.length) && citBodyOK body))
    || citCloseSearch rest

/-- One or more whitespace characters then p dot digits, as a prefix
(remainder unconstrained): the tail of the truncated per-sentence
pattern of metrics.py. -/
def citOpenTail (cs : List Char) : Bool :=
  match cs with
  | [] => false
  | c :: _ => isPySpace c && (pDotDigits (cs.dropWhile isPySpace)).isSome

/-- re.search of the truncated pattern of metrics.py line 60: open
paren, one or more non-close-paren characters, whitespace, p dot
digits, with no closing paren required. -/
def citOpenSearch : List Char → Bool
  | [] => false
  | c :: rest =>
    (c = '(' &&
      (let body := rest.takeWhile (fun x => x ≠ ')')
       (List.range body.length).any fun k =>
         decide (1 ≤ k) && citOpenTail (rest.drop k)))
    || citOpenSearch rest

/-- Count of the non-overlapping matches re.findall produces for the
citation pattern: scanning left to right, each match ends at the first
close paren after its open paren, and scanning resumes there.  The fuel
is at least the input length and every step consumes at least one
character, so the zero-fuel case is unreachable from citCount. -/
def citCountF : Nat → List Char → Nat
  | _, [] => 0
  | 0, _ => 0
  | f + 1, c :: rest =>
    if c = '(' then
      let body := rest.takeWhile (fun x => x ≠ ')')
      if decide (body.length < rest.length) && citBodyOK body then
        1 + citCountF f (rest.drop (body.length + 1))
      else citCountF f rest
    else citCountF f rest

/-- Number of citation matches in the input. -/
def citCount (cs : List Char) : Nat :=
  citCountF cs.length cs

/-! ## judge.py -/

/-- Remove the non-overlapping matches of open paren, one or more
non-close-paren characters, close paren (judge.py line 27).  Fuel as in
citCountF. -/
def removeCitationsF : Nat → List Char → List Char
  | _, [] => []
  | 0, cs => cs
  | f + 1, c :: rest =>
    if c = '(' then
      let body := rest.takeWhile (fun x => x ≠ ')')
      if decide (body.length < rest.length) && decide (1 ≤ body.length) then
        removeCitationsF f (rest.drop (body.length + 1))
      else c :: removeCitationsF f rest
    else c :: removeCitationsF f rest

/-- Remove inline citations from a character list. -/
def removeCitations (cs : List Char) : List Char :=
  removeCitationsF cs.length cs

/-- The stop-word list of extract_keywords (judge.py line 33). -/
def stopWords : List String :=
  ["the", "a", "an", "and", "or", "but", "in", "on", "at", "to", "for",
   "of", "with", "by", "is", "are", "was", "were", "be", "been", "have",
   "has", "had", "do", "does", "did", "will", "would", "could", "should",
   "may", "might", "must", "can", "this", "that", "these", "those", "it",
   "its", "they", "them", "we", "you", "he", "she", "not", "no", "yes"]

/-- extract_keywords (judge.py lines 21-36): drop citations, replace
every character that is neither a word character nor whitespace by a
space, lowercase, split on whitespace, and keep the words longer than
three characters that are not stop words, as a set. -/
def extract_keywords (text : String) : Finset String :=
  if text = "" then ∅
  else
    let cs := removeCitations text.data
    let cs2 := cs.map fun c => if isWordChar c || isPySpace c then c else ' '
    let words := (pyWords (cs2.map Char.toLower)).map fun w => String.mk w
    (words.filter fun w => 3 < w.length && !stopWords.contains w).toFinset

/-- compute_groundedness_proxy (judge.py lines 39-53): keyword overlap
between answer and evidence over the answer keyword count, clamped to
one. -/
def compute_groundedness_proxy (answer evidence : String) : ℚ :=
  if answer = "" ∨ evidence = "" then 0
  else
    let answer_keywords := extract_keywords answer
    let evidence_keywords := extract_keywords evidence
    if answer_keywords = ∅ then 0
    else
      min 1 (((answer_keywords ∩ evidence_keywords).card : ℚ) / (answer_keywords.card : ℚ))

/-- The dictionary check_citations returns (judge.py lines 81-86). -/
structure CitationCheck where
  has_citations : Bool
  citation_coverage : ℚ
  citation_correctness : ℚ
  citation_count : Nat
deriving DecidableEq

/-- check_citations (judge.py lines 56-86): find citation matches in
the answer, split the answer into non-empty stripped sentences on
sentence punctuation, and report the fraction of sentences containing
a citation match, plus a correctness flag that is one exactly when at
least one match exists. -/
def check_citations (answer : String) : CitationCheck :=
  let citations := citCount answer.data
  let has_citations := 0 < citations
  let sentences := pySentences answer
  let sentences_with_citations := (sentences.filter citCloseSearch).length
  let citation_coverage : ℚ :=
    if sentences.length = 0 then 0
    else (sentences_with_citations : ℚ) / (sentences.length : ℚ)
  { has_citations := has_citations
    citation_coverage := citation_coverage
    citation_correctness := if has_citations then 1 else 0
    citation_count := citations }

/-- The answer-side predicate of check_not_found_correctness (judge.py
line 96): the lowercased answer contains the phrase not found or the
phrase not in. -/
def pyIsNotFound (answer : String) : Bool :=
  pyContains (pyLower answer) "not found" || pyContains (pyLower answer) "not in"

/-- check_not_found_correctness (judge.py lines 89-103).  The evidence
parameter is accepted and unused, as in the source. -/
def check_not_found_correctness (answer : String) (retrieved_count : Nat)
    (evidence : Option String) : ℚ :=
  let _ := evidence
  let is_not_found := pyIsNotFound answer
  if retrieved_count = 0 then
    if is_not_found then 1 else 0
  else
    if is_not_found then 0 else 1

/-- compute_length_penalty (judge.py lines 106-118). -/
def compute_length_penalty (answer : String) : ℚ :=
  let word_count := (pyWords answer.data).length
  if 20 ≤ word_count ∧ word_count ≤ 200 then 1
  else if word_count < 10 then 1 / 2
  else if word_count > 500 then 7 / 10
  else 9 / 10

/-- Format a rational with two decimal places, modelling the Python
two-digit float format used in the rule-judge rationale (the binary
float rounding of the source is modelled by rational rounding). -/
def fmt2 (q : ℚ) : String :=
  let m : ℤ := round (100 * q)
  let sign := if m < 0 then "-" else ""
  let a := m.natAbs
  let frac := a % 100
  sign ++ toString (a / 100) ++ "." ++ (if frac < 10 then "0" else "") ++ toString frac

/-- The verdict dictionary judge_answer_rule and judge_answer_llm
return: all five keys are always present. -/
structure RuleVerdict where
  score : ℚ
  rationale : String
  citation_correctness : ℚ
  coverage : ℚ
  is_grounded : Bool
deriving DecidableEq

/-- judge_answer_rule (judge.py lines 121-172): weighted combination of
the groundedness proxy, citation quality and completeness proxy,
clamped to the unit interval.  The question parameter is unused, as in
the source. -/
def judge_answer_rule (question answer : String) (evidence_pack : Option String)
    (retrieved_count : Nat) : RuleVerdict :=
  let _ := question
  let groundedness_proxy := compute_groundedness_proxy answer (evidence_pack.getD "")
  let citation_metrics := check_citations answer
  let not_found_score := check_not_found_correctness answer retrieved_count evidence_pack
  let length_penalty := compute_length_penalty answer
  let citation_quality :=
    (6 / 10 : ℚ) * citation_metrics.citation_correctness +
    (4 / 10 : ℚ) * citation_metrics.citation_coverage
  let completeness_proxy :=
    (7 / 10 : ℚ) * not_found_score + (3 / 10 : ℚ) * length_penalty
  let score :=
    (45 / 100 : ℚ) * groundedness_proxy +
    (35 / 100 : ℚ) * citation_quality +
    (20 / 100 : ℚ) * completeness_proxy
  let score := max 0 (min 1 score)
  { score := score
    rationale :=
      "Rule-based score: groundedness=" ++ fmt2 groundedness_proxy ++
      ", citation_quality=" ++ fmt2 citation_quality ++
      ", completeness=" ++ fmt2 completeness_proxy
    citation_correctness := citation_metrics.citation_correctness
    coverage := completeness_proxy
    is_grounded := decide ((1 : ℚ) / 2 < groundedness_proxy) }

/-- The JSON object the LLM judge parses out of the generation-service
response, with Option fields for keys that may be absent (judge.py
lines 291-302; absent keys default inside judge_answer_llm). -/
structure JudgeJson where
  score : Option ℚ
  rationale : Option String
  citation_correctness : Option ℚ
  coverage : Option ℚ
  is_grounded : Option Bool
deriving DecidableEq

/-- judge_answer_llm (judge.py lines 175-313), with the external
generation call made explicit: gcpConfigured models the GCP_PROJECT_ID
guard, callRaises models an exception escaping the retried call (or the
numeric conversions), and parsed models the result of safe_json_loads
on the response text (none when the text is not valid JSON).  Every
failure path returns the rule judge on the same inputs with
retrieved_count zero; a parsed object has its numeric fields clamped to
the unit interval and its absent fields defaulted. -/
def judge_answer_llm (gcpConfigured callRaises : Bool) (parsed : Option JudgeJson)
    (question answer : String) (evidence_pack expected_answer : Option String) :
    RuleVerdict :=
  let _ := expected_answer
  if !gcpConfigured then judge_answer_rule question answer evidence_pack 0
  else if callRaises then judge_answer_rule question answer evidence_pack 0
  else
    match parsed with
    | none => judge_answer_rule question answer evidence_pack 0
    | some j =>
      { score := max 0 (min 1 (j.score.getD (1 / 2)))
        rationale := j.rationale.getD "No rationale provided"
        citation_correctness := max 0 (min 1 (j.citation_correctness.getD (1 / 2)))
        coverage := max 0 (min 1 (j.coverage.getD (1 / 2)))
        is_grounded := j.is_grounded.getD false }

/-- judge_answer (judge.py lines 316-343): dispatch on the judge mode. -/
def judge_answer (gcpConfigured callRaises : Bool) (parsed : Option JudgeJson)
    (question answer : String) (evidence_pack expected_answer : Option String)
    (judge_mode : String) (retrieved_count : Nat) : RuleVerdict :=
  if judge_mode = "llm" then
    judge_answer_llm gcpConfigured callRaises parsed question answer evidence_pack expected_answer
  else
    judge_answer_rule question answer evidence_pack retrieved_count

/-! ## metrics.py -/

/-- An item of the retrieved list a mode runner builds (spec section 3,
text_rag.py lines 211-216, optical.py lines 225-230). -/
structure RetrievedItem where
  doc_id : String
  page : Nat
  memory_id : String
  excerpt : String
deriving DecidableEq

/-- The dictionary compute_citation_metrics returns (metrics.py lines
68-72).  The retrieved_pages parameter of the source is unused in its
body and therefore omitted from the fields it reports. -/
structure CitationMetrics where
  has_citations : Bool
  citation_coverage : ℚ
  citation_count : Nat
deriving DecidableEq

/-- compute_citation_metrics (metrics.py lines 39-72): citation count
from the extraction pattern (same matches as the judge.py pattern up to
the lazy quantifier), and sentence coverage measured with the truncated
per-sentence pattern that has no closing paren. -/
def compute_citation_metrics (answer : String) (retrieved_pages : List RetrievedItem) :
    CitationMetrics :=
  let _ := retrieved_pages
  let citations := citCount answer.data
  let sentences := pySentences answer
  let sentences_with_citations := (sentences.filter citOpenSearch).length
  let citation_coverage : ℚ :=
    if sentences.length = 0 then 0
    else (sentences_with_citations : ℚ) / (sentences.length : ℚ)
  { has_citations := 0 < citations
    citation_coverage := citation_coverage
    citation_count := citations }

/-- compute_context_units (metrics.py lines 75-102): evidence-pack
character count for text_rag; count of distinct (doc_id, page) pairs
with truthy doc_id and page for optical and hybrid; zero otherwise. -/
def compute_context_units (mode : String) (retrieved : List RetrievedItem)
    (evidence_pack : Option String) : Nat :=
  if mode = "text_rag" then
    (evidence_pack.getD "").length
  else if mode = "optical" ∨ mode = "hybrid" then
    (((retrieved.filter fun r => r.doc_id ≠ "" && r.page ≠ 0).map
        fun r => (r.doc_id, r.page)).toFinset).card
  else 0

/-- The metrics bundle compute_all_metrics returns (metrics.py lines
122-129). -/
structure MetricsBundle where
  has_citations : Bool
  citation_coverage : ℚ
  citation_count : Nat
  retrieved_pages_count : Nat
  estimated_context_units : Nat
  latency_seconds : ℚ
deriving DecidableEq

/-- compute_all_metrics (metrics.py lines 105-129).  The question
parameter is unused, as in the source. -/
def compute_all_metrics (mode question answer : String) (retrieved : List RetrievedItem)
    (latency : ℚ) (evidence_pack : Option String) : MetricsBundle :=
  let _ := question
  let citation_metrics := compute_citation_metrics answer retrieved
  { has_citations := citation_metrics.has_citations
    citation_coverage := citation_metrics.citation_coverage
    citation_count := citation_metrics.citation_count
    retrieved_pages_count := retrieved.length
    estimated_context_units := compute_context_units mode retrieved evidence_pack
    latency_seconds := latency }

/-! ## The retrieval service and query_with_corpus_filter -/

/-- The metadata record of a retrieval-service result, normalized from
the duck-typed attribute-or-dict shapes the sources probe: absent keys
are none (spec section 6). -/
structure Metadata where
  doc_id : Option String
  corpus_id : Option String
  page : Option Nat
  summary : Option String
  entities : List String
deriving DecidableEq

/-- A retrieval-service result, normalized: id is the memory id, and
content is the content-or-text-or-string-representation chain of
_extract_result_info already collapsed to one string. -/
structure SMResult where
  id : String
  content : String
  metadata : Metadata
deriving DecidableEq

/-- A corpus manifest, reduced to the page map _extract_result_info
consults: pairs of memory id and the (possibly absent) page entry. -/
structure Manifest where
  pages : List (String × Option Nat)
deriving DecidableEq

/-- The first manifest page entry whose memory id matches, as in the
lookup loop of _extract_result_info (qa.py lines 177-182). -/
def manifestPage (m : Manifest) (memory_id : String) : Option Nat :=
  match m.pages.find? fun e => e.1 == memory_id with
  | some e => e.2
  | none => none

/-- _extract_result_info (qa.py lines 151-205): memory id, page number
(metadata page, else manifest lookup, else failure) and content, or
none when no page resolves or the stripped content is empty. -/
def extract_result_info (r : SMResult) (manifest : Option Manifest) :
    Option (String × Nat × String) :=
  let memory_id := r.id
  let page_number : Option Nat :=
    match r.metadata.page with
    | some p => some p
    | none =>
      match manifest with
      | some m => manifestPage m memory_id
      | none => none
  match page_number with
  | none => none
  | some page =>
    if pyStripCL r.content.data = [] then none
    else some (memory_id, page, r.content)

/-- The per-result filter of query_with_corpus_filter (text_rag.py
lines 91-92): the metadata corpus id must be present and equal to the
requested one, and when a doc id is requested the metadata doc id must
be present and equal to it. -/
def qwcfMatches (corpus_id : String) (doc_id : Option String) (r : SMResult) : Bool :=
  r.metadata.corpus_id == some corpus_id &&
    (doc_id.isNone || r.metadata.doc_id == doc_id)

/-- The collection loop of query_with_corpus_filter (text_rag.py lines
80-95): append each matching result and stop once top_k have been
collected.  count is the number already collected. -/
def qwcfCollect (corpus_id : String) (doc_id : Option String) (top_k : Nat) :
    Nat → List SMResult → List SMResult
  | _, [] => []
  | count, r :: rs =>
    if qwcfMatches corpus_id doc_id r then
      if top_k ≤ count + 1 then [r]
      else r :: qwcfCollect corpus_id doc_id top_k (count + 1) rs
    else qwcfCollect corpus_id doc_id top_k count rs

/-- query_with_corpus_filter (text_rag.py lines 30-99), with the
external search call made explicit: results is the list the retrieval
service returns (under any of the probed SDK shapes) and the function
applies the corpus and doc filter loop followed by the final top_k
slice.  The retry wrapper is transparent to callers and not modelled. -/
def query_with_corpus_filter (results : List SMResult) (corpus_id : String)
    (doc_id : Option String) (top_k : Nat) : List SMResult :=
  (qwcfCollect corpus_id doc_id top_k 0 results).take top_k

/-! ## Mode runners -/

/-- A ModeResult (spec section 3): the dictionary each runner returns. -/
structure ModeResult where
  answer_md : String
  retrieved : List RetrievedItem
  evidence_pack : String
deriving DecidableEq

/-- The canonical sentinel result for the no-evidence case. -/
def notFoundResult : ModeResult :=
  { answer_md := "Not found in provided documents.", retrieved := [], evidence_pack := "" }

/-- _build_evidence_pack (qa.py lines 208-232): one section per result
with extractable info, content hard-truncated per item, joined by the
fixed separator. -/
def build_evidence_pack (results : List SMResult) (manifest : Option Manifest)
    (doc_id : String) (max_chars_per_page : Nat) : String :=
  let _ := doc_id
  String.intercalate "\n\n---\n\n" (results.filterMap fun r =>
    (extract_result_info r manifest).map fun info =>
      let content := info.2.2
      let content :=
        if max_chars_per_page < content.length then
          content.take max_chars_per_page ++ "... [truncated]"
        else content
      "[Page " ++ toString info.2.1 ++ " | memory_id=" ++ info.1 ++ "]\n" ++ content)

/-- The external collaborators of run_text_rag: the GCP configuration
guard, the list the retrieval service returns for this query, and the
generation service as a function from the evidence pack to the answer
text (question, corpus and model are fixed by the call). -/
structure TextRagExt where
  gcpConfigured : Bool
  serviceResults : List SMResult
  generate : String → String

/-- run_text_rag (text_rag.py lines 135-222): filter the service
results, return the sentinel on empty results or an empty evidence
pack, otherwise generate an answer from the evidence pack and report
one retrieved item per result with extractable info.  The configuration
error is an Except.error, as the source raises. -/
def run_text_rag (ext : TextRagExt) (corpus_id question : String)
    (top_k max_chars_per_page : Nat) (doc_id : Option String)
    (manifest : Option Manifest) : Except String ModeResult :=
  let _ := question
  let _ := corpus_id
  if !ext.gcpConfigured then
    Except.error "GCP_PROJECT_ID not found in environment variables"
  else
    match query_with_corpus_filter ext.serviceResults corpus_id doc_id top_k with
    | [] => Except.ok notFoundResult
    | results =>
      let evidence_pack := build_evidence_pack results manifest (doc_id.getD "") max_chars_per_page
      if evidence_pack = "" then Except.ok notFoundResult
      else
        let answer_md := ext.generate evidence_pack
        let retrieved := results.filterMap fun r =>
          (extract_result_info r manifest).map fun info =>
            let content := info.2.2
            ({ doc_id := r.metadata.doc_id.getD (doc_id.getD "")
               page := info.2.1
               memory_id := info.1
               excerpt := if 250 < content.length then content.take 250 else content } :
              RetrievedItem)
        Except.ok { answer_md := answer_md, retrieved := retrieved, evidence_pack := evidence_pack }

/-- The page summary record the optical runner collects (optical.py
lines 234-239 and 249-254). -/
structure PageSummary where
  doc_id : String
  page : Nat
  summary : String
  entities : List String
deriving DecidableEq

/-- The retrieved item the optical runner appends for one result
(optical.py lines 221-230): doc id defaulted from the filter, excerpt
from the summary when non-empty, else from the content. -/
def mkOpticalItem (r : SMResult) (doc_id : Option String) (memory_id : String)
    (page : Nat) (content : String) : RetrievedItem :=
  let d := r.metadata.doc_id.getD (doc_id.getD "")
  let summary := r.metadata.summary.getD ""
  { doc_id := d
    page := page
    memory_id := memory_id
    excerpt := if summary ≠ "" then summary.take 250 else content.take 250 }

/-- The page summary the optical runner appends for one result. -/
def mkOpticalSummary (r : SMResult) (doc_id : Option String) (page : Nat) : PageSummary :=
  { doc_id := r.metadata.doc_id.getD (doc_id.getD "")
    page := page
    summary := r.metadata.summary.getD ""
    entities := r.metadata.entities }

/-- The external collaborators of run_optical: the GCP guard, the
service results, whether the page image at the deterministic path for a
(doc_id, page) loads, the image-based generation call (none models the
exception that triggers the proxy fallback) and the proxy generation
call on the collected summaries. -/
structure OpticalExt where
  gcpConfigured : Bool
  serviceResults : List SMResult
  imageLoads : String → Nat → Bool
  generateWithImages : List (String × Nat) → List PageSummary → Option String
  generateProxy : List PageSummary → String

/-- The extraction loop of run_optical (optical.py lines 206-254):
build the retrieved list (one item per result with extractable info,
unconditionally), and collect images and summaries (in proxy mode every
extracted result contributes a summary; otherwise only results whose
page image loads contribute an image and a summary). -/
def opticalLoop (manifest : Option Manifest) (doc_id : Option String)
    (use_proxy : Bool) (imageLoads : String → Nat → Bool) :
    List SMResult → List RetrievedItem × List (String × Nat) × List PageSummary
  | [] => ([], [], [])
  | r :: rs =>
    match extract_result_info r manifest with
    | none => opticalLoop manifest doc_id use_proxy imageLoads rs
    | some info =>
      let item := mkOpticalItem r doc_id info.1 info.2.1 info.2.2
      let summ := mkOpticalSummary r doc_id info.2.1
      let rest := opticalLoop manifest doc_id use_proxy imageLoads rs
      if use_proxy then
        (item :: rest.1, rest.2.1, summ :: rest.2.2)
      else
        let d := r.metadata.doc_id.getD (doc_id.getD "")
        if imageLoads d info.2.1 then
          (item :: rest.1, (d, info.2.1) :: rest.2.1, summ :: rest.2.2)
        else
          (item :: rest.1, rest.2.1, rest.2.2)

/-- The evidence pack of the proxy branch (optical.py lines 273-276 and
287-290): page and doc header plus the summary text, joined by the
fixed separator. -/
def proxyEvidencePack (summaries : List PageSummary) : String :=
  String.intercalate "\n\n---\n\n" (summaries.map fun s =>
    "[Page " ++ toString s.page ++ " from " ++ s.doc_id ++ "]\nSummary: " ++ s.summary)

/-- run_optical (optical.py lines 143-296): filter the service results,
run the extraction loop, truncate all three collections to max_images
when more than max_images page images loaded, return the sentinel when
both images and summaries are empty, and otherwise answer either from
images (falling back to the proxy on generation failure) or from the
proxy summaries.  The manifest-file read and the corpus directory are
folded into the manifest argument and the imageLoads collaborator. -/
def run_optical (ext : OpticalExt) (corpus_id question : String)
    (top_k max_images : Nat) (doc_id : Option String)
    (manifest : Option Manifest) (use_proxy : Bool) : Except String ModeResult :=
  let _ := question
  if !ext.gcpConfigured then
    Except.error "GCP_PROJECT_ID not found in environment variables"
  else
    match query_with_corpus_filter ext.serviceResults corpus_id doc_id top_k with
    | [] => Except.ok notFoundResult
    | results =>
      let loop := opticalLoop manifest doc_id use_proxy ext.imageLoads results
      let retrieved := loop.1
      let page_images := loop.2.1
      let page_summaries := loop.2.2
      let retrieved := if max_images < page_images.length then retrieved.take max_images else retrieved
      let page_summaries :=
        if max_images < page_images.length then page_summaries.take max_images else page_summaries
      let page_images := if max_images < page_images.length then page_images.take max_images else page_images
      if page_images = [] ∧ page_summaries = [] then Except.ok notFoundResult
      else if use_proxy || page_images = [] then
        Except.ok
          { answer_md := ext.generateProxy page_summaries
            retrieved := retrieved
            evidence_pack := proxyEvidencePack page_summaries }
      else
        match ext.generateWithImages page_images page_summaries with
        | some answer_md =>
          Except.ok { answer_md := answer_md, retrieved := retrieved, evidence_pack := "" }
        | none =>
          Except.ok
            { answer_md := ext.generateProxy page_summaries
              retrieved := retrieved
              evidence_pack := proxyEvidencePack page_summaries }

/-- run_hybrid (hybrid.py lines 24-71): pure delegation to run_optical
with identical arguments. -/
def run_hybrid (ext : OpticalExt) (corpus_id question : String)
    (top_k max_images : Nat) (doc_id : Option String)
    (manifest : Option Manifest) (use_proxy : Bool) : Except String ModeResult :=
  run_optical ext corpus_id question top_k max_images doc_id manifest use_proxy

/-! ## run_eval.py: the per-(question, mode) orchestrator step -/

/-- The judge dictionary as stored on an evaluation result: Option
fields model dictionary keys that may be absent (the success path
stores the five-key judge_answer dictionary; the error path of run_mode
synthesizes a four-key dictionary without is_grounded). -/
structure JudgeDict where
  score : Option ℚ
  rationale : Option String
  citation_correctness : Option ℚ
  coverage : Option ℚ
  is_grounded : Option Bool
deriving DecidableEq

/-- The five-key dictionary of a judge verdict: every key present. -/
def ruleVerdictDict (v : RuleVerdict) : JudgeDict :=
  { score := some v.score
    rationale := some v.rationale
    citation_correctness := some v.citation_correctness
    coverage := some v.coverage
    is_grounded := some v.is_grounded }

/-- One evaluation result row (run_eval.py lines 253-287): metrics is
none for the empty dictionary of the error path. -/
structure EvaluationResult where
  mode : String
  question_id : String
  question : String
  answer : String
  retrieved : List RetrievedItem
  metrics : Option MetricsBundle
  judge : JudgeDict
  latency : ℚ
  success : Bool
  error : Option String
deriving DecidableEq

/-- The body of run_mode that can raise, reduced to its data outcome:
on success, the ModeResult of the runner and the verdict of the judge
call on its outputs; on any exception in retrieval, generation, metrics
or judging, the exception message. -/
def RunModeOutcome := Except String (ModeResult × RuleVerdict)

/-- run_mode (run_eval.py lines 88-287), with the tracing calls (no
effect on the returned row) elided and the fallible body made explicit:
a success outcome yields a success row with computed metrics and the
five-key judge dictionary; an exception yields the except-branch row of
lines 267-287 with empty answer and retrieved list, empty metrics, a
synthesized zero-score judge dictionary and the message in the error
field. -/
def run_mode (mode question_id question : String) (outcome : RunModeOutcome)
    (latency : ℚ) : EvaluationResult :=
  match outcome with
  | Except.ok o =>
    { mode := mode
      question_id := question_id
      question := question
      answer := o.1.answer_md
      retrieved := o.1.retrieved
      metrics := some (compute_all_metrics mode question o.1.answer_md o.1.retrieved latency
        (some o.1.evidence_pack))
      judge := ruleVerdictDict o.2
      latency := latency
      success := true
      error := none }
  | Except.error msg =>
    { mode := mode
      question_id := question_id
      question := question
      answer := ""
      retrieved := []
      metrics := none
      judge :=
        { score := some 0
          rationale := some ("Error: " ++ msg)
          citation_correctness := some 0
          coverage := some 0
          is_grounded := none }
      latency := latency
      success := false
      error := some msg }

/-! ## Derived views of the optical loop -/

/-- The retrieved list the optical loop builds: one item per result
with extractable info, in the retrieval order, with no deduplication. -/
def opticalItems (results : List SMResult) (manifest : Option Manifest)
    (doc_id : Option String) : List RetrievedItem :=
  results.filterMap fun r =>
    (extract_result_info r manifest).map fun info =>
      mkOpticalItem r doc_id info.1 info.2.1 info.2.2

/-- The page summaries the optical loop builds in proxy mode: one per
result with extractable info, in the retrieval order. -/
def opticalSummaries (results : List SMResult) (manifest : Option Manifest)
    (doc_id : Option String) : List PageSummary :=
  results.filterMap fun r =>
    (extract_result_info r manifest).map fun info =>
      mkOpticalSummary r doc_id info.2.1

/-- The retrieved list of a mode-runner outcome (empty on the raising
path). -/
def exceptRetrieved : Except String ModeResult → List RetrievedItem
  | Except.ok r => r.retrieved
  | Except.error _ => []

theorem opticalItems_cons (r : SMResult) (rs : List SMResult)
    (manifest : Option Manifest) (doc_id : Option String) :
    opticalItems (r :: rs) manifest doc_id =
      (match extract_result_info r manifest with
       | none => opticalItems rs manifest doc_id
       | some info =>
         mkOpticalItem r doc_id info.1 info.2.1 info.2.2 :: opticalItems rs manifest doc_id) := by
  unfold opticalItems
  rw [List.filterMap_cons]
  cases extract_result_info r manifest <;> simp

theorem opticalSummaries_cons (r : SMResult) (rs : List SMResult)
    (manifest : Option Manifest) (doc_id : Option String) :
    opticalSummaries (r :: rs) manifest doc_id =
      (match extract_result_info r manifest with
       | none => opticalSummaries rs manifest doc_id
       | some info =>
         mkOpticalSummary r doc_id info.2.1 :: opticalSummaries rs manifest doc_id) := by
  unfold opticalSummaries
  rw [List.filterMap_cons]
  cases extract_result_info r manifest <;> simp

theorem opticalLoop_fst (manifest : Option Manifest) (doc_id : Option String)
    (use_proxy : Bool) (il : String → Nat → Bool) :
    ∀ rs : List SMResult,
      (opticalLoop manifest doc_id use_proxy il rs).1 = opticalItems rs manifest doc_id := by
  intro rs
  induction rs with
  | nil => rfl
  | cons r rs ih =>
    rw [opticalItems_cons]
    unfold opticalLoop
    cases h : extract_result_info r manifest with
    | none => simpa [h] using ih
    | some info =>
      simp only [h]
      by_cases hup : use_proxy = true
      · rw [if_pos hup]
        simp [ih]
      · rw [if_neg hup]
        by_cases himg : il (r.metadata.doc_id.getD (doc_id.getD "")) info.2.1 = true
        · rw [if_pos himg]
          simp [ih]
        · rw [if_neg himg]
          simp [ih]

theorem opticalLoop_proxy_imgs (manifest : Option Manifest) (doc_id : Option String)
    (il : String → Nat → Bool) :
    ∀ rs : List SMResult, (opticalLoop manifest doc_id true il rs).2.1 = [] := by
  intro rs
  induction rs with
  | nil => rfl
  | cons r rs ih =>
    unfold opticalLoop
    cases h : extract_result_info r manifest with
    | none => simpa [h] using ih
    | some info => simp [h, ih]

theorem opticalLoop_proxy_sums (manifest : Option Manifest) (doc_id : Option String)
    (il : String → Nat → Bool) :
    ∀ rs : List SMResult,
      (opticalLoop manifest doc_id true il rs).2.2 = opticalSummaries rs manifest doc_id := by
  intro rs
  induction rs with
  | nil => rfl
  | cons r rs ih =>
    unfold opticalLoop opticalSummaries
    cases h : extract_result_info r manifest with
    | none => simpa [h, List.filterMap_cons, opticalSummaries] using ih
    | some info => simp [h, List.filterMap_cons, opticalSummaries, ih]

theorem opticalItems_length_eq (manifest : Option Manifest) (doc_id : Option String) :
    ∀ rs : List SMResult,
      (opticalItems rs manifest doc_id).length = (opticalSummaries rs manifest doc_id).length := by
  intro rs
  induction rs with
  | nil => rfl
  | cons r rs ih =>
    unfold opticalItems opticalSummaries
    cases h : extract_result_info r manifest with
    | none => simpa [h, List.filterMap_cons, opticalItems, opticalSummaries] using ih
    | some info => simpa [h, List.filterMap_cons, opticalItems, opticalSummaries] using ih

theorem query_filter_length_le (results : List SMResult) (corpus_id : String)
    (doc_id : Option String) (top_k : Nat) :
    (query_with_corpus_filter results corpus_id doc_id top_k).length ≤ top_k := by
  unfold query_with_corpus_filter
  simp only [List.length_take]
  exact Nat.min_le_left top_k _

theorem opticalItems_length_le (rs : List SMResult) (manifest : Option Manifest)
    (doc_id : Option String) : (opticalItems rs manifest doc_id).length ≤ rs.length :=
  List.length_filterMap_le _ _

/-- Evaluation of run_optical on a configured environment: the gcp
guard passes and the outcome is determined by the loop views and the
final branch structure.  The empty-results early return coincides with
the empty-collections sentinel, so one uniform expression covers it. -/
theorem run_optical_true_eval (rs : List SMResult) (il : String → Nat → Bool)
    (gi : List (String × Nat) → List PageSummary → Option String)
    (gp : List PageSummary → String) (corpus_id question : String)
    (top_k max_images : Nat) (doc_id : Option String) (manifest : Option Manifest)
    (use_proxy : Bool) :
    run_optical ⟨true, rs, il, gi, gp⟩ corpus_id question top_k max_images doc_id manifest use_proxy =
      (let loop := opticalLoop manifest doc_id use_proxy il
        (query_with_corpus_filter rs corpus_id doc_id top_k)
       let retrieved := if max_images < loop.2.1.length then loop.1.take max_images else loop.1
       let sums := if max_images < loop.2.1.length then loop.2.2.take max_images else loop.2.2
       let imgs := if max_images < loop.2.1.length then loop.2.1.take max_images else loop.2.1
       if imgs = [] ∧ sums = [] then Except.ok notFoundResult
       else if use_proxy || imgs = [] then
         Except.ok
           { answer_md := gp sums, retrieved := retrieved, evidence_pack := proxyEvidencePack sums }
       else
         match gi imgs sums with
         | some answer_md =>
           Except.ok { answer_md := answer_md, retrieved := retrieved, evidence_pack := "" }
         | none =>
           Except.ok
             { answer_md := gp sums, retrieved := retrieved,
               evidence_pack := proxyEvidencePack sums }) := by
  unfold run_optical
  cases hq : query_with_corpus_filter rs corpus_id doc_id top_k with
  | nil => simp [hq, opticalLoop, notFoundResult]
  | cons a l => simp [hq]

/-! ## Fixtures (concrete retrieval-service behaviors) -/

/-- Metadata of a page-one result in corpus A. -/
def metaA : Metadata :=
  { doc_id := some "D1", corpus_id := some "A", page := some 1,
    summary := some "SumOne", entities := [] }

/-- Metadata of a result in corpus B. -/
def metaB : Metadata :=
  { doc_id := some "D2", corpus_id := some "B", page := some 2,
    summary := none, entities := [] }

/-- Metadata of a result carrying no corpus id. -/
def metaC : Metadata :=
  { doc_id := some "D3", corpus_id := none, page := some 3,
    summary := none, entities := [] }

/-- Metadata of a page-three result in corpus A. -/
def metaA3 : Metadata :=
  { doc_id := some "D1", corpus_id := some "A", page := some 3,
    summary := some "SumThree", entities := [] }

/-- A corpus-A result on (D1, 1). -/
def resA : SMResult := { id := "m1", content := "alpha content", metadata := metaA }

/-- A corpus-B result. -/
def resB : SMResult := { id := "m2", content := "beta content", metadata := metaB }

/-- A result with no corpus id in its metadata. -/
def resC : SMResult := { id := "m3", content := "gamma content", metadata := metaC }

/-- A second corpus-A result on the same (D1, 1) pair as resA. -/
def resA2 : SMResult := { id := "m4", content := "alpha two", metadata := metaA }

/-- A corpus-A result on (D1, 3). -/
def resA3 : SMResult := { id := "m5", content := "third content", metadata := metaA3 }

/-- An optical environment whose retrieval service returns two results
with the same (doc_id, page) pair. -/
def extDup : OpticalExt :=
  { gcpConfigured := true
    serviceResults := [resA, resA2]
    imageLoads := fun _ _ => false
    generateWithImages := fun _ _ => none
    generateProxy := fun _ => "proxy answer" }

/-- An optical environment whose retrieval service returns three
extractable corpus-A results. -/
def extTriple : OpticalExt :=
  { gcpConfigured := true
    serviceResults := [resA, resA2, resA3]
    imageLoads := fun _ _ => false
    generateWithImages := fun _ _ => none
    generateProxy := fun _ => "proxy answer" }

/-- The worked example answer of the specification. -/
def exampleAnswer : String := "Revenue grew 10%. (D1 p.2) Costs also rose."

/-! ## Small proof helpers -/

theorem prefix_take_ite {α : Type} (c : Prop) [Decidable c] (n : Nat) (l : List α) :
    List.IsPrefix (if c then l.take n else l) l := by
  split
  · exact List.take_prefix n l
  · exact List.prefix_refl l

theorem mem_qwcfCollect {corpus_id : String} {doc_id : Option String} {top_k : Nat} :
    ∀ {count : Nat} {rs : List SMResult} {r : SMResult},
      r ∈ qwcfCollect corpus_id doc_id top_k count rs → qwcfMatches corpus_id doc_id r = true := by
  intro count rs
  induction rs generalizing count with
  | nil => intro r h; simp [qwcfCollect] at h
  | cons a as ih =>
    intro r h
    unfold qwcfCollect at h
    by_cases hm : qwcfMatches corpus_id doc_id a = true
    · rw [if_pos hm] at h
      by_cases hc : top_k ≤ count + 1
      · rw [if_pos hc] at h
        simp only [List.mem_singleton] at h
        subst h
        exact hm
      · rw [if_neg hc] at h
        rcases List.mem_cons.mp h with h1 | h2
        · subst h1
          exact hm
        · exact ih h2
    · rw [if_neg hm] at h
      exact ih h

theorem check_citations_correctness_cases (a : String) :
    (check_citations a).citation_correctness = 0 ∨ (check_citations a).citation_correctness = 1 := by
  unfold check_citations
  dsimp only
  split
  · right; rfl
  · left; rfl

theorem check_not_found_cases (a : String) (n : Nat) (e : Option String) :
    check_not_found_correctness a n e = 0 ∨ check_not_found_correctness a n e = 1 := by
  unfold check_not_found_correctness
  dsimp only
  split <;> split <;> simp

theorem length_penalty_bounds (a : String) :
    (1 / 2 : ℚ) ≤ compute_length_penalty a ∧ compute_length_penalty a ≤ 1 := by
  unfold compute_length_penalty
  dsimp only
  split
  · norm_num
  · split
    · norm_num
    · split <;> norm_num

/-! ## Claim theorems -/

/-- Claim C1, counterexample: the claim states that run_optical
deduplicates its consumed results by (doc_id, page) so that the
retrieved list never contains two items with the same pair.  On a
retrieval-service behavior returning two extractable results on the
pair (D1, 1), the retrieved list of the returned ModeResult contains
both, so the projected (doc_id, page) list has a duplicate. -/
theorem run_optical_dedup_counterexample :
    ¬ ((exceptRetrieved (run_optical extDup "A" "q" 8 6 none none true)).map fun i =>
        (i.doc_id, i.page)).Nodup := by decide

/-- Claim C1, amended: run_optical performs no deduplication.  In proxy
mode the retrieved list of its ModeResult is exactly one item per
result with extractable info, in the retrieval-service order, so
duplicate (doc_id, page) pairs are passed through; in every mode the
retrieved list is a prefix of that per-result list (truncation to
max_images and the sentinel are the only reductions), so earlier-ranked
results are preserved by position, not by deduplication. -/
theorem run_optical_proxy_no_dedup :
    ∀ (rs : List SMResult) (il : String → Nat → Bool)
      (gi : List (String × Nat) → List PageSummary → Option String)
      (gp : List PageSummary → String) (corpus_id question : String)
      (top_k max_images : Nat) (doc_id : Option String) (manifest : Option Manifest),
      exceptRetrieved
          (run_optical ⟨true, rs, il, gi, gp⟩ corpus_id question top_k max_images doc_id manifest
            true) =
        opticalItems (query_with_corpus_filter rs corpus_id doc_id top_k) manifest doc_id ∧
      ∀ use_proxy : Bool,
        List.IsPrefix
          (exceptRetrieved
            (run_optical ⟨true, rs, il, gi, gp⟩ corpus_id question top_k max_images doc_id manifest
              use_proxy))
          (opticalItems (query_with_corpus_filter rs corpus_id doc_id top_k) manifest doc_id) := by
  intro rs il gi gp corpus_id question top_k max_images doc_id manifest
  constructor
  · rw [run_optical_true_eval]
    simp only [opticalLoop_proxy_imgs, opticalLoop_proxy_sums, opticalLoop_fst,
      List.length_nil, Nat.not_lt_zero, if_false, List.take_nil]
    by_cases hs : opticalSummaries (query_with_corpus_filter rs corpus_id doc_id top_k)
        manifest doc_id = []
    · have hlen := opticalItems_length_eq manifest doc_id
        (query_with_corpus_filter rs corpus_id doc_id top_k)
      rw [hs] at hlen
      simp only [List.length_nil] at hlen
      have hitems := List.length_eq_zero.mp hlen
      simp [hs, hitems, exceptRetrieved, notFoundResult]
    · simp [hs, exceptRetrieved]
  · intro use_proxy
    rw [run_optical_true_eval]
    simp only [opticalLoop_fst]
    by_cases htr : max_images <
        (opticalLoop manifest doc_id use_proxy il
          (query_with_corpus_filter rs corpus_id doc_id top_k)).2.1.length
    · simp only [if_pos htr]
      split
      · simp [exceptRetrieved, notFoundResult]
      · split
        · simp only [exceptRetrieved]
          exact List.take_prefix _ _
        · split
          · simp only [exceptRetrieved]
            exact List.take_prefix _ _
          · simp only [exceptRetrieved]
            exact List.take_prefix _ _
    · simp only [if_neg htr]
      split
      · simp [exceptRetrieved, notFoundResult]
      · split
        · simp only [exceptRetrieved]
          exact List.prefix_refl _
        · split
          · simp only [exceptRetrieved]
            exact List.prefix_refl _
          · simp only [exceptRetrieved]
            exact List.prefix_refl _

/-- Claim C2, counterexample: the claim states that on a behavior where
filtering by corpus_id yields fewer than top_k matches, the function
returns the broader unfiltered list, leaking other corpora.  On a
service behavior with one corpus-A match among three results and top_k
of five, the function returns only the corpus-A match, not the broader
list. -/
theorem query_filter_no_fallback_counterexample :
    query_with_corpus_filter [resA, resB, resC] "A" none 5 = [resA] ∧
    query_with_corpus_filter [resA, resB, resC] "A" none 5 ≠ [resA, resB, resC] := by decide

/-- Claim C2, amended: query_with_corpus_filter never returns the
broader unfiltered set: every item of its returned list has a metadata
corpus_id equal to the requested one (and a matching doc_id when one is
requested), for every retrieval-service behavior, so no memory from
another corpus can appear in its output. -/
theorem query_filter_corpus_exact :
    ∀ (results : List SMResult) (corpus_id : String) (doc_id : Option String) (top_k : Nat)
      (r : SMResult),
      r ∈ query_with_corpus_filter results corpus_id doc_id top_k →
        r.metadata.corpus_id = some corpus_id ∧
          (doc_id = none ∨ r.metadata.doc_id = doc_id) := by
  intro results corpus_id doc_id top_k r h
  unfold query_with_corpus_filter at h
  have hmem := List.take_subset top_k _ h
  have hm := mem_qwcfCollect hmem
  simp only [qwcfMatches, Bool.and_eq_true, Bool.or_eq_true, beq_iff_eq,
    Option.isNone_iff_eq_none] at hm
  exact ⟨hm.1, hm.2⟩

/-- Claim C2, witness: the amended theorem applied to a concrete
three-result service behavior and the corpus-A member of its output. -/
theorem query_filter_corpus_exact_witness :
    resA ∈ query_with_corpus_filter [resA, resB, resC] "A" none 5 ∧
      (resA.metadata.corpus_id = some "A" ∧
        ((none : Option String) = none ∨ resA.metadata.doc_id = none)) :=
  ⟨by decide, query_filter_corpus_exact [resA, resB, resC] "A" none 5 resA (by decide)⟩

/-- Claim C3, counterexample: the claim states the worked example has
citation_coverage one half and citation_quality four fifths.  On the
example answer the sentence splitter cuts inside the citation, so the
computed coverage is not one half and the weighted citation quality is
not four fifths. -/
theorem citation_example_counterexample :
    (check_citations exampleAnswer).citation_coverage ≠ 1 / 2 ∧
    (6 / 10 : ℚ) * (check_citations exampleAnswer).citation_correctness +
        (4 / 10 : ℚ) * (check_citations exampleAnswer).citation_coverage ≠ 8 / 10 := by
  have h1 : (pySentences exampleAnswer).length = 3 := by decide
  have h2 : ((pySentences exampleAnswer).filter citCloseSearch).length = 0 := by decide
  have h3 : citCount exampleAnswer.data = 1 := by decide
  constructor
  · unfold check_citations
    dsimp only
    rw [h1, h2]
    norm_num
  · unfold check_citations
    dsimp only
    rw [h1, h2, h3]
    norm_num

/-- Claim C3, amended: on the example answer the split on sentence
punctuation also splits inside the citation (D1 p.2), producing three
non-empty sentences none of which contains a full citation match, so
check_citations returns citation_coverage zero and citation_correctness
one, the rule-judge citation quality is three fifths, and
compute_citation_metrics agrees on coverage zero. -/
theorem citation_example_actual :
    (pySentences exampleAnswer).length = 3 ∧
    ((pySentences exampleAnswer).filter citCloseSearch).length = 0 ∧
    (check_citations exampleAnswer).citation_correctness = 1 ∧
    (check_citations exampleAnswer).citation_coverage = 0 ∧
    (6 / 10 : ℚ) * (check_citations exampleAnswer).citation_correctness +
        (4 / 10 : ℚ) * (check_citations exampleAnswer).citation_coverage = 6 / 10 ∧
    (compute_citation_metrics exampleAnswer []).citation_coverage = 0 := by
  have h1 : (pySentences exampleAnswer).length = 3 := by decide
  have h2 : ((pySentences exampleAnswer).filter citCloseSearch).length = 0 := by decide
  have h3 : citCount exampleAnswer.data = 1 := by decide
  have h4 : ((pySentences exampleAnswer).filter citOpenSearch).length = 0 := by decide
  refine ⟨h1, h2, ?_, ?_, ?_, ?_⟩
  · unfold check_citations
    dsimp only
    rw [h3]
    norm_num
  · unfold check_citations
    dsimp only
    rw [h1, h2]
    norm_num
  · unfold check_citations
    dsimp only
    rw [h1, h2, h3]
    norm_num
  · unfold compute_citation_metrics
    dsimp only
    rw [h1, h4]
    norm_num

/-- Claim C4: for every mode, a retrieval-service behavior returning an
empty result list makes the runner return exactly the sentinel
ModeResult with the not-found answer, an empty retrieved list and an
empty evidence pack, without raising. -/
theorem empty_retrieval_sentinel :
    ∀ (gen : String → String) (il : String → Nat → Bool)
      (gi : List (String × Nat) → List PageSummary → Option String)
      (gp : List PageSummary → String) (corpus_id question : String)
      (top_k max_chars_per_page max_images : Nat) (doc_id : Option String)
      (manifest : Option Manifest) (use_proxy : Bool),
      run_text_rag ⟨true, [], gen⟩ corpus_id question top_k max_chars_per_page doc_id manifest =
        Except.ok
          { answer_md := "Not found in provided documents.", retrieved := [],
            evidence_pack := "" } ∧
      run_optical ⟨true, [], il, gi, gp⟩ corpus_id question top_k max_images doc_id manifest
          use_proxy =
        Except.ok
          { answer_md := "Not found in provided documents.", retrieved := [],
            evidence_pack := "" } ∧
      run_hybrid ⟨true, [], il, gi, gp⟩ corpus_id question top_k max_images doc_id manifest
          use_proxy =
        Except.ok
          { answer_md := "Not found in provided documents.", retrieved := [],
            evidence_pack := "" } := by
  intro gen il gi gp corpus_id question top_k max_chars_per_page max_images doc_id manifest
    use_proxy
  refine ⟨?_, ?_, ?_⟩ <;>
    simp [run_text_rag, run_optical, run_hybrid, query_with_corpus_filter, qwcfCollect,
      notFoundResult]

/-- Claim C5: run_hybrid returns exactly the ModeResult of run_optical
on the same arguments and the same external-service behavior. -/
theorem hybrid_equals_optical :
    ∀ (ext : OpticalExt) (corpus_id question : String) (top_k max_images : Nat)
      (doc_id : Option String) (manifest : Option Manifest) (use_proxy : Bool),
      run_hybrid ext corpus_id question top_k max_images doc_id manifest use_proxy =
        run_optical ext corpus_id question top_k max_images doc_id manifest use_proxy :=
  fun _ _ _ _ _ _ _ _ => rfl

/-- Claim C6: every verdict of the rule judge has its score, its
citation correctness and its coverage inside the unit interval. -/
theorem judge_rule_bounds :
    ∀ (question answer : String) (evidence_pack : Option String) (retrieved_count : Nat),
      0 ≤ (judge_answer_rule question answer evidence_pack retrieved_count).score ∧
      (judge_answer_rule question answer evidence_pack retrieved_count).score ≤ 1 ∧
      0 ≤ (judge_answer_rule question answer evidence_pack retrieved_count).citation_correctness ∧
      (judge_answer_rule question answer evidence_pack retrieved_count).citation_correctness ≤ 1 ∧
      0 ≤ (judge_answer_rule question answer evidence_pack retrieved_count).coverage ∧
      (judge_answer_rule question answer evidence_pack retrieved_count).coverage ≤ 1 := by
  intro question answer evidence_pack retrieved_count
  unfold judge_answer_rule
  dsimp only
  refine ⟨le_max_left _ _, max_le (by norm_num) (min_le_left _ _), ?_, ?_, ?_, ?_⟩
  · rcases check_citations_correctness_cases answer with h | h
    all_goals rw [h]
    all_goals norm_num
  · rcases check_citations_correctness_cases answer with h | h
    all_goals rw [h]
    all_goals norm_num
  · rcases check_not_found_cases answer retrieved_count evidence_pack with h | h
    all_goals
      rw [h]
      rcases length_penalty_bounds answer with ⟨h1, h2⟩
      linarith
  · rcases check_not_found_cases answer retrieved_count evidence_pack with h | h
    all_goals
      rw [h]
      rcases length_penalty_bounds answer with ⟨h1, h2⟩
      linarith

/-- Claim C7: check_not_found_correctness returns one exactly when the
retrieved count is zero and the answer contains a not-found phrase, or
the count is positive and the answer does not; and on the sentinel
answer with zero retrieved results it returns one. -/
theorem not_found_correctness_spec :
    (∀ (answer : String) (retrieved_count : Nat) (evidence : Option String),
        check_not_found_correctness answer retrieved_count evidence =
          if (retrieved_count = 0 ∧ pyIsNotFound answer = true) ∨
              (0 < retrieved_count ∧ pyIsNotFound answer = false) then 1 else 0) ∧
    check_not_found_correctness "Not found in provided documents." 0 none = 1 := by
  constructor
  · intro answer retrieved_count evidence
    unfold check_not_found_correctness
    dsimp only
    rcases Nat.eq_zero_or_pos retrieved_count with hn | hn
    · subst hn
      cases hb : pyIsNotFound answer <;> simp [hb]
    · have hne : retrieved_count ≠ 0 := Nat.pos_iff_ne_zero.mp hn
      rw [if_neg hne]
      cases hb : pyIsNotFound answer <;> simp [hb, hne, hn]
  · decide

/-- Claim C8: when the generation-service response does not parse as
JSON, the LLM judge does not raise and returns exactly the rule-judge
verdict on the same question, answer and evidence with a retrieved
count of zero. -/
theorem llm_judge_unparseable_fallback :
    ∀ (gcpConfigured callRaises : Bool) (question answer : String)
      (evidence_pack expected_answer : Option String),
      judge_answer_llm gcpConfigured callRaises none question answer evidence_pack
          expected_answer =
        judge_answer_rule question answer evidence_pack 0 := by
  intro gcpConfigured callRaises question answer evidence_pack expected_answer
  cases gcpConfigured <;> cases callRaises <;> rfl

/-- Claim C9, counterexample: the claim states the synthesized verdict
of the error path is fully populated with all five JudgeVerdict fields.
On a concrete failing iteration the synthesized judge dictionary has no
is_grounded key. -/
theorem run_mode_error_verdict_counterexample :
    (run_mode "optical" "q1" "What is revenue?" (Except.error "boom") 0).success = false ∧
    (run_mode "optical" "q1" "What is revenue?" (Except.error "boom") 0).judge.is_grounded =
      none := by
  exact ⟨rfl, rfl⟩

/-- Claim C9, amended: when the body of a per-(question, mode)
iteration raises, run_mode catches it and returns a result with success
false, the exception message in the error field, and a synthesized
zero-score judge dictionary populating score, rationale,
citation_correctness and coverage — but not is_grounded, which is
absent from the synthesized dictionary (the CSV export later defaults
it). -/
theorem run_mode_error_verdict_fields :
    ∀ (mode question_id question msg : String) (latency : ℚ),
      (run_mode mode question_id question (Except.error msg) latency).success = false ∧
      (run_mode mode question_id question (Except.error msg) latency).error = some msg ∧
      (run_mode mode question_id question (Except.error msg) latency).judge.score = some 0 ∧
      (run_mode mode question_id question (Except.error msg) latency).judge.rationale =
        some ("Error: " ++ msg) ∧
      (run_mode mode question_id question (Except.error msg) latency).judge.citation_correctness =
        some 0 ∧
      (run_mode mode question_id question (Except.error msg) latency).judge.coverage = some 0 ∧
      (run_mode mode question_id question (Except.error msg) latency).judge.is_grounded =
        none := by
  intro mode question_id question msg latency
  exact ⟨rfl, rfl, rfl, rfl, rfl, rfl, rfl⟩

/-- Claim C10: with use_proxy true the max_images cap is never applied:
the outcome of run_optical is independent of max_images, its retrieved
list is bounded only by top_k, and on a concrete behavior with three
extractable results and max_images one the retrieved list still has
three items. -/
theorem optical_proxy_cap_unapplied :
    ∀ (rs : List SMResult) (il : String → Nat → Bool)
      (gi : List (String × Nat) → List PageSummary → Option String)
      (gp : List PageSummary → String) (corpus_id question : String)
      (top_k mi1 mi2 : Nat) (doc_id : Option String) (manifest : Option Manifest),
      run_optical ⟨true, rs, il, gi, gp⟩ corpus_id question top_k mi1 doc_id manifest true =
        run_optical ⟨true, rs, il, gi, gp⟩ corpus_id question top_k mi2 doc_id manifest true ∧
      (exceptRetrieved
          (run_optical ⟨true, rs, il, gi, gp⟩ corpus_id question top_k mi1 doc_id manifest
            true)).length ≤ top_k ∧
      (exceptRetrieved (run_optical extTriple "A" "q" 3 1 none none true)).length = 3 := by
  intro rs il gi gp corpus_id question top_k mi1 mi2 doc_id manifest
  refine ⟨?_, ?_, by decide⟩
  · rw [run_optical_true_eval, run_optical_true_eval]
    simp only [opticalLoop_proxy_imgs, List.length_nil, Nat.not_lt_zero, if_false]
  · rw [run_optical_true_eval]
    simp only [opticalLoop_proxy_imgs, opticalLoop_proxy_sums, opticalLoop_fst,
      List.length_nil, Nat.not_lt_zero, if_false, List.take_nil]
    by_cases hs : opticalSummaries (query_with_corpus_filter rs corpus_id doc_id top_k)
        manifest doc_id = []
    · simp [hs, exceptRetrieved, notFoundResult]
    · simp only [hs, and_false, if_false, Bool.true_or, if_true, exceptRetrieved]
      exact le_trans
        (opticalItems_length_le (query_with_corpus_filter rs corpus_id doc_id top_k) manifest
          doc_id)
        (query_filter_length_le rs corpus_id doc_id top_k)

end VisionEval
